import Mathlib

/-!
# Wake / transmit / re-arm cycle of the wand firmware

A shallow embedding of `firmware/wand_esp-c3/src/main.cpp`.

Every call into the Arduino / ESP-IDF libraries is an *operation* that is
appended to a trace together with the value it returned.  The returned value
is taken from an oracle (`World.env`), indexed by the position of the call in
the execution, so a statement quantified over the oracle speaks about every
outcome of every bus and radio call.  The firmware globals (`bootCount`,
`myData`, `peerInfo`) are fields of the state; the store to the RTC-retained
`bootCount` is logged in the trace as well, so that its place among the
library calls can be stated.
-/

namespace MagicWand

/-! ## Configuration constants (lines 8-30 of main.cpp) -/

/-- Source: `uint8_t receiverMAC[] = {0x84, 0x1F, 0xE8, 0x17, 0x62, 0xD4};` -/
def receiverMAC : List Nat := [0x84, 0x1F, 0xE8, 0x17, 0x62, 0xD4]

/-- Source: `#define WIFI_CHANNEL 13` -/
def WIFI_CHANNEL : Nat := 13

/-- Source: `#define INT_PIN GPIO_NUM_4`; `GPIO_NUM_4` is the enumerator of value 4. -/
def INT_PIN : Nat := 4

/-- Source: `#define SDA_PIN 8` -/
def SDA_PIN : Nat := 8

/-- Source: `#define SCL_PIN 9` -/
def SCL_PIN : Nat := 9

/-- Source: `#define MPU_ADDR 0x68` -/
def MPU_ADDR : Nat := 0x68

/-- Source: `#define MOTION_SENSITIVITY 40` -/
def MOTION_SENSITIVITY : Nat := 40

/-- Source: `#define INT_PIN_CFG 0x37` -/
def INT_PIN_CFG : Nat := 0x37

/-- Source: `#define INT_ENABLE 0x38` -/
def INT_ENABLE : Nat := 0x38

/-- Source: `#define INT_STATUS 0x3A` -/
def INT_STATUS : Nat := 0x3A

/-- Source: `#define ACCEL_CONFIG 0x1C` -/
def ACCEL_CONFIG : Nat := 0x1C

/-- Source: `#define MOT_THR 0x1F` -/
def MOT_THR : Nat := 0x1F

/-- Source: `#define MOT_DUR 0x20` -/
def MOT_DUR : Nat := 0x20

/-- Source: `#define PWR_MGMT_1 0x6B` -/
def PWR_MGMT_1 : Nat := 0x6B

/-- The `esp_err_t` success code of ESP-IDF. -/
def ESP_OK : Int := 0

/-- Smallest value of the 32-bit `int` of the target. -/
def INT_MIN : Int := -2147483648

/-- Largest value of the 32-bit `int` of the target. -/
def INT_MAX : Int := 2147483647

/-! ## Data model -/

/-- The two arguments `WiFi.mode` is called with. -/
inductive wifi_mode_t
  | WIFI_OFF
  | WIFI_STA
  deriving DecidableEq, Repr

/-- The transmit power level `WiFi.setTxPower` is called with. -/
inductive wifi_power_t
  | WIFI_POWER_19_5dBm
  deriving DecidableEq, Repr

/-- The secondary-channel argument of `esp_wifi_set_channel`. -/
inductive wifi_second_chan_t
  | WIFI_SECOND_CHAN_NONE
  deriving DecidableEq, Repr

/-- The wake level argument of `esp_deep_sleep_enable_gpio_wakeup`. -/
inductive esp_deepsleep_gpio_wake_up_mode_t
  | ESP_GPIO_WAKEUP_GPIO_LOW
  | ESP_GPIO_WAKEUP_GPIO_HIGH
  deriving DecidableEq, Repr

/-- Source: `typedef struct { char msg[32]; unsigned long timestamp; } struct_message;`
`msg` is the list of the 32 bytes of the array. -/
structure struct_message where
  msg : List Nat
  timestamp : Nat
  deriving DecidableEq, Repr

/-- The fields of `esp_now_peer_info_t` that the firmware assigns. -/
structure esp_now_peer_info_t where
  peer_addr : List Nat
  channel : Nat
  encrypt : Bool
  deriving DecidableEq, Repr

/-- Value of `sizeof(struct_message)` on the target: 32 bytes of `msg` and a 4-byte
`unsigned long`. -/
def sizeof_struct_message : Nat := 32 + 4

/-- One call that leaves the program, with the arguments it was given; the
last constructor is the store to the RTC-retained variable `bootCount`. -/
inductive Op
  | Wire_begin (sda scl : Nat)
  | Wire_beginTransmission (addr : Nat)
  | Wire_write (byte : Nat)
  | Wire_endTransmission
  | Wire_requestFrom (addr qty : Nat) (sendStop : Bool)
  | Wire_read
  | WiFi_mode (m : wifi_mode_t)
  | WiFi_disconnect
  | WiFi_setTxPower (p : wifi_power_t)
  | esp_wifi_set_promiscuous (en : Bool)
  | esp_wifi_set_channel (primary : Nat) (second : wifi_second_chan_t)
  | esp_now_init
  | esp_now_add_peer (peer : esp_now_peer_info_t)
  | millis
  | esp_now_send (peer_addr : List Nat) (data : struct_message) (len : Nat)
  | delay (ms : Nat)
  | esp_deep_sleep_enable_gpio_wakeup (mask : Nat)
      (mode : esp_deepsleep_gpio_wake_up_mode_t)
  | esp_deep_sleep_start
  | store_bootCount (v : Int)
  deriving DecidableEq, Repr

/-- An entry of the trace: the operation and, for a call that returns a
value, the value it returned. -/
structure Event where
  op : Op
  ret : Option Int
  deriving DecidableEq, Repr

/-- State of one execution: the three globals, the oracle that answers the
library calls, and the trace of what has happened so far. -/
structure World where
  bootCount : Int
  myData : struct_message
  peerInfo : esp_now_peer_info_t
  env : Nat → Int
  trace : List Event

/-- A library call that returns a value: the oracle answers, the call and
its answer are logged. -/
def call (op : Op) (w : World) : Int × World :=
  (w.env w.trace.length,
   { w with trace := w.trace ++ [⟨op, some (w.env w.trace.length)⟩] })

/-- A library call of return type `void`, and the store to `bootCount`. -/
def callVoid (op : Op) (w : World) : World :=
  { w with trace := w.trace ++ [⟨op, none⟩] }

/-- Conversion of an `int` argument to `uint8_t`, as done by
`TwoWire::write(int)`. -/
def toUint8 (v : Nat) : Nat := v % 256

/-- Conversion to the 32-bit `unsigned long` of the target. -/
def toUnsignedLong (v : Int) : Nat := (v % 4294967296).toNat

/-- Result of an `int` computation, wrapped into the 32-bit two's-complement
range as the target does (ISO C++ leaves the overflowing case undefined). -/
def wrapInt (v : Int) : Int := (v + 2147483648) % 4294967296 - 2147483648

/-- Model of `memcpy(dst, src, n)` on byte lists: the first `n` bytes of `dst` are
replaced by the first `n` bytes of `src`. -/
def memcpy (dst src : List Nat) (n : Nat) : List Nat :=
  src.take n ++ dst.drop n

/-- Model of `strcpy(dst, src)` on byte lists: the characters of `src` and the
terminating zero overwrite the start of `dst`, the rest of `dst` is kept. -/
def strcpy (dst src : List Nat) : List Nat :=
  src ++ [0] ++ dst.drop (src.length + 1)

/-- The bytes of the string literal `"TOGGLE"`. -/
def TOGGLE : List Nat := [84, 79, 71, 71, 76, 69]

/-! ## The firmware (lines 47-154 of main.cpp) -/

/-- The loop `for(int i=0; i<3; i++) { esp_now_send(...); delay(2); }`. -/
def burstLoop (i : Nat) (w : World) : World :=
  if i < 3 then
    let w := (call (.esp_now_send receiverMAC w.myData sizeof_struct_message) w).2
    let w := callVoid (.delay 2) w
    burstLoop (i + 1) w
  else w
termination_by 3 - i

/-- Source: `void sendBurstMessage()`. -/
def sendBurstMessage (w : World) : World :=
  let w := (call (.WiFi_mode .WIFI_STA) w).2
  let w := (call .WiFi_disconnect w).2
  let w := (call (.WiFi_setTxPower .WIFI_POWER_19_5dBm) w).2
  let w := (call (.esp_wifi_set_promiscuous true) w).2
  let w := (call (.esp_wifi_set_channel WIFI_CHANNEL .WIFI_SECOND_CHAN_NONE) w).2
  let w := (call (.esp_wifi_set_promiscuous false) w).2
  let r := call .esp_now_init w
  let w := r.2
  let w :=
    if r.1 = ESP_OK then
      let w := { w with peerInfo :=
        { w.peerInfo with peer_addr := memcpy w.peerInfo.peer_addr receiverMAC 6 } }
      let w := { w with peerInfo := { w.peerInfo with channel := WIFI_CHANNEL } }
      let w := { w with peerInfo := { w.peerInfo with encrypt := false } }
      let w := (call (.esp_now_add_peer w.peerInfo) w).2
      let w := { w with myData := { w.myData with msg := strcpy w.myData.msg TOGGLE } }
      let t := call .millis w
      let w := t.2
      let w := { w with myData := { w.myData with timestamp := toUnsignedLong t.1 } }
      burstLoop 0 w
    else w
  (call (.WiFi_mode .WIFI_OFF) w).2

/-- Source: `void configureMPU_WakeOnMotion()`. -/
def configureMPU_WakeOnMotion (w : World) : World :=
  -- Reset
  let w := callVoid (.Wire_beginTransmission MPU_ADDR) w
  let w := (call (.Wire_write (toUint8 PWR_MGMT_1)) w).2
  let w := (call (.Wire_write (toUint8 0x80)) w).2
  let w := (call .Wire_endTransmission w).2
  let w := callVoid (.delay 50) w
  -- Wake up
  let w := callVoid (.Wire_beginTransmission MPU_ADDR) w
  let w := (call (.Wire_write (toUint8 PWR_MGMT_1)) w).2
  let w := (call (.Wire_write (toUint8 0x00)) w).2
  let w := (call .Wire_endTransmission w).2
  -- High Pass Filter (5Hz)
  let w := callVoid (.Wire_beginTransmission MPU_ADDR) w
  let w := (call (.Wire_write (toUint8 ACCEL_CONFIG)) w).2
  let w := (call (.Wire_write (toUint8 0x01)) w).2
  let w := (call .Wire_endTransmission w).2
  -- Interrupt Config (Latch + Clear on Read)
  let w := callVoid (.Wire_beginTransmission MPU_ADDR) w
  let w := (call (.Wire_write (toUint8 INT_PIN_CFG)) w).2
  let w := (call (.Wire_write (toUint8 0x30)) w).2
  let w := (call .Wire_endTransmission w).2
  -- Enable Motion Interrupt
  let w := callVoid (.Wire_beginTransmission MPU_ADDR) w
  let w := (call (.Wire_write (toUint8 INT_ENABLE)) w).2
  let w := (call (.Wire_write (toUint8 0x40)) w).2
  let w := (call .Wire_endTransmission w).2
  -- Threshold
  let w := callVoid (.Wire_beginTransmission MPU_ADDR) w
  let w := (call (.Wire_write (toUint8 MOT_THR)) w).2
  let w := (call (.Wire_write (toUint8 MOTION_SENSITIVITY)) w).2
  let w := (call .Wire_endTransmission w).2
  -- Duration
  let w := callVoid (.Wire_beginTransmission MPU_ADDR) w
  let w := (call (.Wire_write (toUint8 MOT_DUR)) w).2
  let w := (call (.Wire_write (toUint8 1)) w).2
  (call .Wire_endTransmission w).2

/-- Source: `void setup()`. -/
def setup (w : World) : World :=
  -- 1. Init I2C
  let w := (call (.Wire_begin SDA_PIN SCL_PIN) w).2
  -- 2. clear the interrupt
  let w := callVoid (.Wire_beginTransmission MPU_ADDR) w
  let w := (call (.Wire_write (toUint8 INT_STATUS)) w).2
  let w := (call .Wire_endTransmission w).2
  let w := (call (.Wire_requestFrom MPU_ADDR 1 true) w).2
  let w := (call .Wire_read w).2
  -- 3. send the message, only if this is not the first plugin
  let w := if w.bootCount > 0 then sendBurstMessage w else w
  let w := { w with bootCount := wrapInt (w.bootCount + 1) }
  let w := callVoid (.store_bootCount w.bootCount) w
  -- 4. re-configure the MPU for the next sleep
  let w := configureMPU_WakeOnMotion w
  -- 5. enable wakeup and sleep
  let w := (call (.esp_deep_sleep_enable_gpio_wakeup ((1 <<< INT_PIN) % 2 ^ 64)
    .ESP_GPIO_WAKEUP_GPIO_HIGH) w).2
  callVoid .esp_deep_sleep_start w

/-- The state in which an execution starts: `bootCount` is what the RTC
memory holds, the other globals have their static zero initial value, the
trace is empty. -/
def boot (c : Int) (env : Nat → Int) : World :=
  { bootCount := c
    myData := { msg := List.replicate 32 0, timestamp := 0 }
    peerInfo := { peer_addr := List.replicate 6 0, channel := 0, encrypt := false }
    env := env
    trace := [] }

/-- The executions of one power session: `n` consecutive runs of `setup`,
the first starting with `bootCount = c`, each later one with the `bootCount`
the previous one left; run number `k` is answered by the oracle `envs k`.
The result is the final state of each run, in order. -/
def session (envs : Nat → Nat → Int) : Nat → Nat → Int → List World
  | 0, _, _ => []
  | n + 1, k, c =>
    let w := setup (boot c (envs k))
    w :: session envs n (k + 1) w.bootCount

/-! ## Observations on traces -/

/-- The operations of a trace, without the returned values. -/
def ops (t : List Event) : List Op := t.map Event.op

/-- The operations that drive the radio. -/
def isRadio : Op → Bool
  | .WiFi_mode _ => true
  | .WiFi_disconnect => true
  | .WiFi_setTxPower _ => true
  | .esp_wifi_set_promiscuous _ => true
  | .esp_wifi_set_channel _ _ => true
  | .esp_now_init => true
  | .esp_now_add_peer _ => true
  | .esp_now_send _ _ _ => true
  | _ => false

/-- The calls of `esp_now_send`. -/
def isSend : Op → Bool
  | .esp_now_send _ _ _ => true
  | _ => false

/-- The `esp_now_send` calls of a trace, in order. -/
def sends (t : List Event) : List Op := (ops t).filter isSend

/-- The radio operations of a trace, in order. -/
def radioOps (t : List Event) : List Op := (ops t).filter isRadio

/-- An execution invoked `sendBurstMessage`: its trace has a radio operation
(`sendBurstMessage` starts with one and no other function has any). -/
def transmits (w : World) : Bool := (ops w.trace).any isRadio

/-- In this trace `esp_now_init` was called and returned `ESP_OK`. -/
def initSucceeded (t : List Event) : Prop := ⟨.esp_now_init, some ESP_OK⟩ ∈ t

/-- In this trace `esp_now_init` was called and returned an error. -/
def initFailed (t : List Event) : Prop :=
  ∃ r : Int, r ≠ ESP_OK ∧ ⟨.esp_now_init, some r⟩ ∈ t

/-- Scanner behind `transactions`: `cur` is the transaction opened by the
last `beginTransmission` and not yet ended. -/
def transactionsFrom : Option (Nat × List Nat) → List Op → List (Nat × List Nat)
  | _, [] => []
  | _, .Wire_beginTransmission a :: t => transactionsFrom (some (a, [])) t
  | some (a, bs), .Wire_write b :: t => transactionsFrom (some (a, bs ++ [b])) t
  | none, .Wire_write _ :: t => transactionsFrom none t
  | some x, .Wire_endTransmission :: t => x :: transactionsFrom none t
  | none, .Wire_endTransmission :: t => transactionsFrom none t
  | cur, _ :: t => transactionsFrom cur t

/-- The I2C write transactions of a sequence of operations: for each
`beginTransmission(addr) ... endTransmission()` the address and the bytes
queued in between. -/
def transactions (l : List Op) : List (Nat × List Nat) := transactionsFrom none l

/-- The values written to register `reg` of the device at `MPU_ADDR`: the
second byte of every two-byte transaction whose first byte is `reg`. -/
def regWrites (reg : Nat) (l : List Op) : List Nat :=
  (transactions l).filterMap fun x =>
    match x with
    | (a, [r, v]) => if a = MPU_ADDR ∧ r = reg then some v else none
    | _ => none

/-- The operations of one two-byte register write to the sensor. -/
def i2cWrite (reg val : Nat) : List Op :=
  [.Wire_beginTransmission 0x68, .Wire_write reg, .Wire_write val, .Wire_endTransmission]

/-- The operations of the interrupt clear: the register address `INT_STATUS`
is written to the sensor, one byte is requested and read. -/
def clearOps : List Op :=
  [.Wire_beginTransmission 0x68, .Wire_write 0x3A, .Wire_endTransmission,
   .Wire_requestFrom 0x68 1 true, .Wire_read]

/-- The sensor configuration protocol: seven register writes, with the 50 ms
wait after the reset. -/
def mpuConfigOps : List Op :=
  i2cWrite 0x6B 0x80 ++ [.delay 50] ++ i2cWrite 0x6B 0x00 ++ i2cWrite 0x1C 0x01 ++
  i2cWrite 0x37 0x30 ++ i2cWrite 0x38 0x40 ++ i2cWrite 0x1F 40 ++ i2cWrite 0x20 1

/-- The sleep arm: wake on pin 4 (mask `1 << 4`) at level high, then deep
sleep. -/
def sleepOps : List Op :=
  [.esp_deep_sleep_enable_gpio_wakeup (1 <<< 4) .ESP_GPIO_WAKEUP_GPIO_HIGH,
   .esp_deep_sleep_start]

/-- The operations that bring the radio up, to `esp_now_init` included. -/
def radioInitOps : List Op :=
  [.WiFi_mode .WIFI_STA, .WiFi_disconnect, .WiFi_setTxPower .WIFI_POWER_19_5dBm,
   .esp_wifi_set_promiscuous true, .esp_wifi_set_channel 13 .WIFI_SECOND_CHAN_NONE,
   .esp_wifi_set_promiscuous false, .esp_now_init]

/-- The peer the burst is sent to: the fixed receiver address on channel 13,
encryption off. -/
def fixedPeer : esp_now_peer_info_t :=
  { peer_addr := [0x84, 0x1F, 0xE8, 0x17, 0x62, 0xD4], channel := 13, encrypt := false }

/-- The payload record with time stamp `ts`: `"TOGGLE"` and 26 zero bytes. -/
def togglePayload (ts : Nat) : struct_message :=
  { msg := [84, 79, 71, 71, 76, 69] ++ List.replicate 26 0, timestamp := ts }

/-- The operations of a burst after a successful `esp_now_init`: the peer is
registered, the clock is read, the payload `d` goes out three times to
the fixed address with 2 ms after each send. -/
def burstOps (d : struct_message) : List Op :=
  [.esp_now_add_peer fixedPeer, .millis,
   .esp_now_send [0x84, 0x1F, 0xE8, 0x17, 0x62, 0xD4] d 36, .delay 2,
   .esp_now_send [0x84, 0x1F, 0xE8, 0x17, 0x62, 0xD4] d 36, .delay 2,
   .esp_now_send [0x84, 0x1F, 0xE8, 0x17, 0x62, 0xD4] d 36, .delay 2]

/-! ## Traces with the returned values, as the oracle determines them -/

/-- Events of one register write that starts at position `n`. -/
def regWriteEvents (env : Nat → Int) (n reg val : Nat) : List Event :=
  [⟨.Wire_beginTransmission 0x68, none⟩,
   ⟨.Wire_write reg, some (env (n + 1))⟩,
   ⟨.Wire_write val, some (env (n + 2))⟩,
   ⟨.Wire_endTransmission, some (env (n + 3))⟩]

/-- Events of `configureMPU_WakeOnMotion` started at position `n`. -/
def configEvents (env : Nat → Int) (n : Nat) : List Event :=
  regWriteEvents env n 0x6B 0x80 ++ [⟨.delay 50, none⟩] ++
  regWriteEvents env (n + 5) 0x6B 0x00 ++
  regWriteEvents env (n + 9) 0x1C 0x01 ++
  regWriteEvents env (n + 13) 0x37 0x30 ++
  regWriteEvents env (n + 17) 0x38 0x40 ++
  regWriteEvents env (n + 21) 0x1F 40 ++
  regWriteEvents env (n + 25) 0x20 1

/-- Events of the bus start and the interrupt clear at the head of `setup`. -/
def clearEvents (env : Nat → Int) : List Event :=
  [⟨.Wire_begin 8 9, some (env 0)⟩,
   ⟨.Wire_beginTransmission 0x68, none⟩,
   ⟨.Wire_write 0x3A, some (env 2)⟩,
   ⟨.Wire_endTransmission, some (env 3)⟩,
   ⟨.Wire_requestFrom 0x68 1 true, some (env 4)⟩,
   ⟨.Wire_read, some (env 5)⟩]

/-- Events of the radio bring-up started at position `n`. -/
def radioInitEvents (env : Nat → Int) (n : Nat) : List Event :=
  [⟨.WiFi_mode .WIFI_STA, some (env n)⟩,
   ⟨.WiFi_disconnect, some (env (n + 1))⟩,
   ⟨.WiFi_setTxPower .WIFI_POWER_19_5dBm, some (env (n + 2))⟩,
   ⟨.esp_wifi_set_promiscuous true, some (env (n + 3))⟩,
   ⟨.esp_wifi_set_channel 13 .WIFI_SECOND_CHAN_NONE, some (env (n + 4))⟩,
   ⟨.esp_wifi_set_promiscuous false, some (env (n + 5))⟩,
   ⟨.esp_now_init, some (env (n + 6))⟩]

/-- Events of the peer registration and the three sends, started at
position `n`. -/
def sendEvents (env : Nat → Int) (n : Nat) (p : esp_now_peer_info_t)
    (d : struct_message) : List Event :=
  [⟨.esp_now_add_peer p, some (env n)⟩,
   ⟨.millis, some (env (n + 1))⟩,
   ⟨.esp_now_send receiverMAC d sizeof_struct_message, some (env (n + 2))⟩,
   ⟨.delay 2, none⟩,
   ⟨.esp_now_send receiverMAC d sizeof_struct_message, some (env (n + 4))⟩,
   ⟨.delay 2, none⟩,
   ⟨.esp_now_send receiverMAC d sizeof_struct_message, some (env (n + 6))⟩,
   ⟨.delay 2, none⟩]

/-- Events of the sleep arm started at position `n`. -/
def sleepEvents (env : Nat → Int) (n : Nat) : List Event :=
  [⟨.esp_deep_sleep_enable_gpio_wakeup 16 .ESP_GPIO_WAKEUP_GPIO_HIGH, some (env n)⟩,
   ⟨.esp_deep_sleep_start, none⟩]

/-- The trace of one execution of `setup` that starts with `bootCount = c`
and is answered by `env`, up to the sleep arm. -/
def cycleBody (c : Int) (env : Nat → Int) : List Event :=
  clearEvents env ++
  (if c > 0 then
    radioInitEvents env 6 ++
    (if env 12 = ESP_OK then
      sendEvents env 13 fixedPeer (togglePayload (toUnsignedLong (env 14))) ++
      [⟨.WiFi_mode .WIFI_OFF, some (env 21)⟩, ⟨.store_bootCount (wrapInt (c + 1)), none⟩] ++
      configEvents env 23
    else
      [⟨.WiFi_mode .WIFI_OFF, some (env 13)⟩, ⟨.store_bootCount (wrapInt (c + 1)), none⟩] ++
      configEvents env 15)
  else
    [⟨.store_bootCount (wrapInt (c + 1)), none⟩] ++ configEvents env 7)

/-- The position of the sleep arm in that trace. -/
def sleepAt (c : Int) (env : Nat → Int) : Nat :=
  if c > 0 then (if env 12 = ESP_OK then 52 else 44) else 36

/-- The whole trace of one execution of `setup` that starts with
`bootCount = c` and is answered by `env`. -/
def cycleTrace (c : Int) (env : Nat → Int) : List Event :=
  cycleBody c env ++ sleepEvents env (sleepAt c env)

/-- The part of a cycle between the interrupt clear and the counter store. -/
def radioPhase (c : Int) (env : Nat → Int) : List Op :=
  if c > 0 then
    radioInitOps ++
    (if env 12 = ESP_OK then burstOps (togglePayload (toUnsignedLong (env 14))) else []) ++
    [.WiFi_mode .WIFI_OFF]
  else []

/-- An oracle under which everything succeeds except `esp_now_add_peer`
(call number 13 of a waking cycle), which returns `ESP_ERR_ESPNOW_NO_MEM`. -/
def addPeerFails : Nat → Int := fun n => if n = 13 then 12391 else 0

/-- An oracle under which `esp_now_init` (call number 12 of a waking cycle)
returns `ESP_ERR_ESPNOW_INTERNAL` and every other call returns 0. -/
def initFails : Nat → Int := fun n => if n = 12 then 12394 else 0

/-- An oracle under which every call returns 0, `millis` returns 1234. -/
def allSucceed : Nat → Int := fun n => if n = 14 then 1234 else 0

/-- The calls of `esp_now_add_peer`. -/
def isAddPeer : Op → Bool
  | .esp_now_add_peer _ => true
  | _ => false

/-- The calls of `millis`. -/
def isMillis (e : Event) : Bool :=
  match e.op with
  | .millis => true
  | _ => false

/-- The two operations of the sleep arm. -/
def isSleepOp : Op → Bool
  | .esp_deep_sleep_enable_gpio_wakeup _ _ => true
  | .esp_deep_sleep_start => true
  | _ => false

/-! ## The functions, computed -/

/-- The configurator only extends the trace, by `configEvents`. -/
theorem configure_eq (w : World) : configureMPU_WakeOnMotion w =
    { w with trace := w.trace ++ configEvents w.env w.trace.length } := by
  cases w
  simp [configureMPU_WakeOnMotion, call, callVoid, configEvents, regWriteEvents, toUint8,
    MPU_ADDR, PWR_MGMT_1, ACCEL_CONFIG, INT_PIN_CFG, INT_ENABLE, MOT_THR, MOT_DUR,
    MOTION_SENSITIVITY, Nat.add_assoc]

/-- The loop runs its body three times. -/
theorem burstLoop_eq (w : World) : burstLoop 0 w =
    { w with trace := w.trace ++
      [⟨.esp_now_send receiverMAC w.myData sizeof_struct_message, some (w.env w.trace.length)⟩,
       ⟨.delay 2, none⟩,
       ⟨.esp_now_send receiverMAC w.myData sizeof_struct_message,
         some (w.env (w.trace.length + 2))⟩,
       ⟨.delay 2, none⟩,
       ⟨.esp_now_send receiverMAC w.myData sizeof_struct_message,
         some (w.env (w.trace.length + 4))⟩,
       ⟨.delay 2, none⟩] } := by
  simp [burstLoop, call, callVoid]

/-- The transmitter when `esp_now_init` returns `ESP_OK`. -/
theorem sendBurst_ok (w : World) (h : w.env (w.trace.length + 6) = ESP_OK) :
    sendBurstMessage w =
    { w with
      peerInfo := { peer_addr := memcpy w.peerInfo.peer_addr receiverMAC 6,
                    channel := 13, encrypt := false }
      myData := { msg := strcpy w.myData.msg TOGGLE,
                  timestamp := toUnsignedLong (w.env (w.trace.length + 8)) }
      trace := w.trace ++ radioInitEvents w.env w.trace.length ++
        sendEvents w.env (w.trace.length + 7)
          { peer_addr := memcpy w.peerInfo.peer_addr receiverMAC 6,
            channel := 13, encrypt := false }
          { msg := strcpy w.myData.msg TOGGLE,
            timestamp := toUnsignedLong (w.env (w.trace.length + 8)) } ++
        [⟨.WiFi_mode .WIFI_OFF, some (w.env (w.trace.length + 15))⟩] } := by
  cases w
  simp only [] at h
  simp [sendBurstMessage, burstLoop_eq, call, callVoid, radioInitEvents, sendEvents,
    WIFI_CHANNEL, Nat.add_assoc, h]

/-- The transmitter when `esp_now_init` returns an error. -/
theorem sendBurst_fail (w : World) (h : w.env (w.trace.length + 6) ≠ ESP_OK) :
    sendBurstMessage w =
    { w with
      trace := w.trace ++ radioInitEvents w.env w.trace.length ++
        [⟨.WiFi_mode .WIFI_OFF, some (w.env (w.trace.length + 7))⟩] } := by
  cases w
  simp only [] at h
  simp [sendBurstMessage, call, callVoid, radioInitEvents, WIFI_CHANNEL, Nat.add_assoc, h]

/-- The configurator makes 29 calls. -/
@[simp]
theorem configEvents_length (env : Nat → Int) (n : Nat) : (configEvents env n).length = 29 := by
  simp [configEvents, regWriteEvents]

/-- The trace of one execution of `setup` from the boot state. -/
theorem setup_boot_trace (c : Int) (env : Nat → Int) :
    (setup (boot c env)).trace = cycleTrace c env := by
  by_cases hc : c > 0
  · by_cases hi : env 12 = ESP_OK
    · have h := sendBurst_ok
        { bootCount := c, myData := ⟨List.replicate 32 0, 0⟩,
          peerInfo := ⟨List.replicate 6 0, 0, false⟩, env := env,
          trace := clearEvents env } (by simpa [clearEvents] using hi)
      simp [setup, boot, call, callVoid, configure_eq, hc, cycleTrace, cycleBody, sleepAt, hi,
        clearEvents, INT_PIN, toUint8, MPU_ADDR, INT_STATUS, SDA_PIN, SCL_PIN, sleepEvents] at h ⊢
      rw [h]
      simp [radioInitEvents, sendEvents, memcpy, strcpy, TOGGLE, receiverMAC, fixedPeer,
        togglePayload]
    · have h := sendBurst_fail
        { bootCount := c, myData := ⟨List.replicate 32 0, 0⟩,
          peerInfo := ⟨List.replicate 6 0, 0, false⟩, env := env,
          trace := clearEvents env } (by simpa [clearEvents] using hi)
      simp [setup, boot, call, callVoid, configure_eq, hc, cycleTrace, cycleBody, sleepAt, hi,
        clearEvents, INT_PIN, toUint8, MPU_ADDR, INT_STATUS, SDA_PIN, SCL_PIN, sleepEvents] at h ⊢
      rw [h]
      simp [radioInitEvents]
  · simp [setup, boot, call, callVoid, configure_eq, hc, cycleTrace, cycleBody, sleepAt,
      clearEvents, INT_PIN, toUint8, MPU_ADDR, INT_STATUS, SDA_PIN, SCL_PIN, sleepEvents]

/-- The transmitter does not touch `bootCount`. -/
theorem sendBurst_bootCount (w : World) : (sendBurstMessage w).bootCount = w.bootCount := by
  by_cases h : w.env (w.trace.length + 6) = ESP_OK
  · rw [sendBurst_ok w h]
  · rw [sendBurst_fail w h]

/-- The counter after one execution of `setup` from the boot state. -/
theorem setup_boot_bootCount (c : Int) (env : Nat → Int) :
    (setup (boot c env)).bootCount = wrapInt (c + 1) := by
  by_cases hc : c > 0
  · simp [setup, boot, call, callVoid, configure_eq, hc, sendBurst_bootCount]
  · simp [setup, boot, call, callVoid, configure_eq, hc]

/-- The operations of one execution of `setup`, phase by phase. -/
theorem ops_cycle (c : Int) (env : Nat → Int) :
    ops (setup (boot c env)).trace =
      [.Wire_begin 8 9] ++ clearOps ++ radioPhase c env ++
      [.store_bootCount (wrapInt (c + 1))] ++ mpuConfigOps ++ sleepOps := by
  rw [setup_boot_trace]
  unfold cycleTrace cycleBody sleepAt radioPhase
  split_ifs <;>
  simp [ops, clearEvents, clearOps, radioInitEvents, radioInitOps, sendEvents, burstOps,
    configEvents, regWriteEvents, mpuConfigOps, i2cWrite, sleepEvents, sleepOps, receiverMAC,
    sizeof_struct_message]

/-- A successful `esp_now_init` is in the trace exactly when the cycle is a
wake and the oracle answers call 12 with `ESP_OK`. -/
theorem initSucceeded_iff (c : Int) (env : Nat → Int) :
    initSucceeded (setup (boot c env)).trace ↔ c > 0 ∧ env 12 = ESP_OK := by
  rw [initSucceeded, setup_boot_trace]
  unfold cycleTrace cycleBody sleepAt
  split_ifs with hc hi
  · simp [hc, hi, clearEvents, radioInitEvents, sendEvents, configEvents, regWriteEvents,
      sleepEvents]
  · simp [hc, hi, clearEvents, radioInitEvents, configEvents, regWriteEvents, sleepEvents]
    exact fun h => hi h.symm
  · simp [hc, clearEvents, configEvents, regWriteEvents, sleepEvents]

/-- A failed `esp_now_init` is in the trace exactly when the cycle is a wake
and the oracle answers call 12 with an error. -/
theorem initFailed_iff (c : Int) (env : Nat → Int) :
    initFailed (setup (boot c env)).trace ↔ c > 0 ∧ env 12 ≠ ESP_OK := by
  rw [initFailed, setup_boot_trace]
  unfold cycleTrace cycleBody sleepAt
  split_ifs <;>
  simp [*, clearEvents, radioInitEvents, sendEvents, configEvents, regWriteEvents,
    sleepEvents]

/-- Inside the `int` range `wrapInt` changes nothing. -/
theorem wrapInt_eq (v : Int) (hlo : -2147483648 ≤ v) (hhi : v ≤ 2147483647) :
    wrapInt v = v := by
  unfold wrapInt
  omega

/-- A cycle that starts with a positive counter invokes the transmitter. -/
theorem transmits_of_pos (c : Int) (env : Nat → Int) (hc : c > 0) :
    transmits (setup (boot c env)) = true := by
  unfold transmits
  rw [ops_cycle]
  simp [radioPhase, hc, radioInitOps, isRadio]

/-- A cycle that starts with a counter that is not positive has no radio
operation. -/
theorem radioOps_of_nonpos (c : Int) (env : Nat → Int) (hc : c ≤ 0) :
    radioOps (setup (boot c env)).trace = [] := by
  unfold radioOps
  rw [ops_cycle]
  simp [radioPhase, not_lt.mpr hc, clearOps, mpuConfigOps, i2cWrite, sleepOps, isRadio]

/-- A cycle that starts with a counter that is not positive does not invoke
the transmitter. -/
theorem transmits_of_nonpos (c : Int) (env : Nat → Int) (hc : c ≤ 0) :
    transmits (setup (boot c env)) = false := by
  have h := radioOps_of_nonpos c env hc
  unfold radioOps at h
  unfold transmits
  rw [Bool.eq_false_iff]
  intro ht
  rw [List.any_eq_true] at ht
  obtain ⟨o, ho, hr⟩ := ht
  have hm : o ∈ (ops (setup (boot c env)).trace).filter isRadio := List.mem_filter.mpr ⟨ho, hr⟩
  rw [h] at hm
  exact List.not_mem_nil _ hm

/-- Unfolding of a session by its first execution. -/
theorem session_succ (envs : Nat → Nat → Int) (n k : Nat) (c : Int) :
    session envs (n + 1) k c =
      setup (boot c (envs k)) :: session envs n (k + 1) (setup (boot c (envs k))).bootCount :=
  rfl

/-- A session of `n` executions has `n` final states. -/
theorem session_length (envs : Nat → Nat → Int) :
    ∀ (n k : Nat) (c : Int), (session envs n k c).length = n := by
  intro n
  induction n with
  | zero => intro k c; rfl
  | succ n ih => intro k c; rw [session_succ, List.length_cons, ih]

/-- While the counter stays in the `int` range, every execution that starts
with a positive counter transmits. -/
theorem session_all_transmit (envs : Nat → Nat → Int) :
    ∀ (n k : Nat) (c : Int), 1 ≤ c → c + n ≤ 2147483648 →
      ∀ w ∈ session envs n k c, transmits w = true := by
  intro n
  induction n with
  | zero => intro k c _ _ w hw; simp [session] at hw
  | succ n ih =>
    intro k c h1 h2 w hw
    rw [session_succ, List.mem_cons] at hw
    rcases hw with rfl | hw
    · exact transmits_of_pos c _ (by omega)
    · cases n with
      | zero => simp [session] at hw
      | succ n =>
        rw [setup_boot_bootCount,
          wrapInt_eq (c + 1) (by omega) (by push_cast at h2; omega)] at hw
        exact ih (k + 1) (c + 1) (by omega) (by push_cast at h2 ⊢; omega) w hw

/-- A session splits into its first `n` executions and the rest, as long as
the counter does not reach the largest `int` in the first part. -/
theorem session_append (envs : Nat → Nat → Int) (m : Nat) :
    ∀ (n k : Nat) (c : Int), 1 ≤ c → c + n ≤ 2147483647 →
      session envs (n + m) k c = session envs n k c ++ session envs m (k + n) (c + n) := by
  intro n
  induction n with
  | zero => intro k c _ _; simp [session]
  | succ n ih =>
    intro k c h1 h2
    rw [Nat.add_right_comm, session_succ, session_succ, setup_boot_bootCount,
      wrapInt_eq (c + 1) (by omega) (by push_cast at h2; omega),
      ih (k + 1) (c + 1) (by omega) (by push_cast at h2 ⊢; omega)]
    have e1 : k + 1 + n = k + (n + 1) := by omega
    have e2 : c + 1 + (n : Int) = c + ((n + 1 : Nat) : Int) := by push_cast; omega
    rw [e1, e2, List.cons_append]

/-- Number of transmitting executions of a session that starts with a positive
counter and stays in the `int` range. -/
theorem filter_transmits_length (envs : Nat → Nat → Int) (n k : Nat) (c : Int)
    (h1 : 1 ≤ c) (h2 : c + n ≤ 2147483648) :
    ((session envs n k c).filter transmits).length = n := by
  rw [List.filter_eq_self.mpr (session_all_transmit envs n k c h1 h2), session_length]

/-! ## The cycle always ends asleep and armed -/

/-- C2: for every starting `bootCount` and every outcome of every bus and
radio call, the trace of one execution of `setup` ends with the GPIO wake-up
armed on pin 4 (mask `1 << 4`) at level high followed by
`esp_deep_sleep_start` as the last effect, and neither call happens
earlier. -/
theorem setup_ends_armed_asleep (c : Int) (env : Nat → Int) :
    ∃ pre r, (setup (boot c env)).trace = pre ++
      [⟨.esp_deep_sleep_enable_gpio_wakeup (1 <<< 4) .ESP_GPIO_WAKEUP_GPIO_HIGH, some r⟩,
       ⟨.esp_deep_sleep_start, none⟩] ∧ (ops pre).filter isSleepOp = [] := by
  refine ⟨cycleBody c env, env (sleepAt c env), ?_, ?_⟩
  · rw [setup_boot_trace]
    rfl
  · unfold cycleBody
    split_ifs <;>
    simp [ops, clearEvents, radioInitEvents, sendEvents, configEvents, regWriteEvents,
      isSleepOp]

/-! ## The sensor configuration -/

/-- C3: `configureMPU_WakeOnMotion` appends, whatever the state and whatever
the bus answers, the same operations: seven two-byte register writes to
address 0x68 (`PWR_MGMT_1 = 0x80`, 50 ms wait, `PWR_MGMT_1 = 0x00`,
`ACCEL_CONFIG = 0x01`, `INT_PIN_CFG = 0x30`, `INT_ENABLE = 0x40`,
`MOT_THR = 40`, `MOT_DUR = 1`); every execution of `setup` has this sequence
right before the sleep arm, and its I2C write transactions are the interrupt
clear followed by exactly these seven. -/
theorem configure_sequence_fixed :
    (∀ w : World, ops (configureMPU_WakeOnMotion w).trace = ops w.trace ++
      (i2cWrite 0x6B 0x80 ++ [.delay 50] ++ i2cWrite 0x6B 0x00 ++ i2cWrite 0x1C 0x01 ++
       i2cWrite 0x37 0x30 ++ i2cWrite 0x38 0x40 ++ i2cWrite 0x1F 40 ++ i2cWrite 0x20 1)) ∧
    (∀ (c : Int) (env : Nat → Int),
      (∃ pre, ops (setup (boot c env)).trace = pre ++ mpuConfigOps ++ sleepOps) ∧
      transactions (ops (setup (boot c env)).trace) =
        [(0x68, [0x3A]), (0x68, [0x6B, 0x80]), (0x68, [0x6B, 0x00]), (0x68, [0x1C, 0x01]),
         (0x68, [0x37, 0x30]), (0x68, [0x38, 0x40]), (0x68, [0x1F, 40]), (0x68, [0x20, 1])]) := by
  refine ⟨fun w => ?_, fun c env => ⟨⟨_, ops_cycle c env⟩, ?_⟩⟩
  · rw [configure_eq]
    simp [ops, configEvents, regWriteEvents, i2cWrite]
  · rw [ops_cycle]
    unfold radioPhase
    split_ifs <;>
    simp [transactions, transactionsFrom, clearOps, radioInitOps, burstOps, mpuConfigOps,
      i2cWrite, sleepOps]

/-- C8: in every cycle the only value written to the motion-threshold
register `MOT_THR` is `MOTION_SENSITIVITY` and the only value written to the
motion-duration register `MOT_DUR` is the duration constant 1. -/
theorem threshold_and_duration_written (c : Int) (env : Nat → Int) :
    regWrites MOT_THR (ops (setup (boot c env)).trace) = [MOTION_SENSITIVITY] ∧
    regWrites MOT_DUR (ops (setup (boot c env)).trace) = [1] := by
  rw [ops_cycle]
  unfold radioPhase
  split_ifs <;>
  simp [regWrites, transactions, transactionsFrom, clearOps, radioInitOps, burstOps,
    mpuConfigOps, i2cWrite, sleepOps, MOT_THR, MOT_DUR, MPU_ADDR, MOTION_SENSITIVITY]

/-! ## The radio is switched off -/

/-- C6: on every path through `sendBurstMessage` the last operation it
performs is `WiFi.mode(WIFI_OFF)`; and in every cycle the operations that
precede the counter store, the sensor configuration and the sleep arm either
contain no radio operation or end with that power-off, and no radio
operation comes after it. -/
theorem radio_off_is_last :
    (∀ w : World, ∃ mid r, (sendBurstMessage w).trace =
      w.trace ++ mid ++ [⟨.WiFi_mode .WIFI_OFF, some r⟩]) ∧
    (∀ (c : Int) (env : Nat → Int), ∃ pre,
      ops (setup (boot c env)).trace =
        pre ++ [.store_bootCount (wrapInt (c + 1))] ++ mpuConfigOps ++ sleepOps ∧
      (pre.filter isRadio = [] ∨ pre.getLast? = some (.WiFi_mode .WIFI_OFF)) ∧
      (([Op.store_bootCount (wrapInt (c + 1))] ++ mpuConfigOps ++ sleepOps).filter isRadio
        = [])) := by
  refine ⟨fun w => ?_, fun c env =>
    ⟨[.Wire_begin 8 9] ++ clearOps ++ radioPhase c env, ops_cycle c env, ?_, ?_⟩⟩
  · by_cases h : w.env (w.trace.length + 6) = ESP_OK
    · rw [sendBurst_ok w h]
      exact ⟨radioInitEvents w.env w.trace.length ++ sendEvents w.env (w.trace.length + 7)
          { peer_addr := memcpy w.peerInfo.peer_addr receiverMAC 6,
            channel := 13, encrypt := false }
          { msg := strcpy w.myData.msg TOGGLE,
            timestamp := toUnsignedLong (w.env (w.trace.length + 8)) },
        w.env (w.trace.length + 15), by simp only [List.append_assoc]⟩
    · rw [sendBurst_fail w h]
      exact ⟨_, _, rfl⟩
  · unfold radioPhase
    split_ifs
    · exact Or.inr (by simp [radioInitOps, burstOps, clearOps])
    · exact Or.inr (by simp [radioInitOps, clearOps])
    · exact Or.inl (by simp [clearOps, isRadio])
  · simp [mpuConfigOps, i2cWrite, sleepOps, isRadio]

/-! ## Order of the effects of a cycle -/

/-- C10: the operations of every execution of `setup` are, in this order:
the bus start and the interrupt clear (`INT_STATUS` written to 0x68, one byte
requested and read), the radio phase (empty when `bootCount <= 0`; from
`WiFi.mode(WIFI_STA)` to `WiFi.mode(WIFI_OFF)` when `bootCount > 0`), the
store of the incremented counter, the seven configuration writes, the sleep
arm.  For `bootCount = 1` with a successful `esp_now_init` the trace is the
interrupt clear, the radio bring-up, three `"TOGGLE"` payloads to the fixed
peer, the power-off, the counter stored as 2, the configuration, the sleep
arm. -/
theorem cycle_order (c : Int) (env : Nat → Int) :
    (∃ radio, ops (setup (boot c env)).trace =
        [.Wire_begin 8 9] ++ clearOps ++ radio ++ [.store_bootCount (wrapInt (c + 1))] ++
          mpuConfigOps ++ sleepOps ∧
        ((c ≤ 0 ∧ radio = []) ∨
         (c > 0 ∧ ∃ mid, radio = [.WiFi_mode .WIFI_STA] ++ mid ++ [.WiFi_mode .WIFI_OFF]))) ∧
    (c = 1 → initSucceeded (setup (boot c env)).trace →
      ∃ t : Int, ⟨.millis, some t⟩ ∈ (setup (boot c env)).trace ∧
        (setup (boot c env)).bootCount = 2 ∧
        ops (setup (boot c env)).trace =
          [.Wire_begin 8 9] ++ clearOps ++ radioInitOps ++
            burstOps (togglePayload (toUnsignedLong t)) ++ [.WiFi_mode .WIFI_OFF] ++
            [.store_bootCount 2] ++ mpuConfigOps ++ sleepOps) := by
  refine ⟨⟨radioPhase c env, ops_cycle c env, ?_⟩, fun h1 hi => ?_⟩
  · by_cases h : c > 0
    · refine Or.inr ⟨h, ?_⟩
      simp only [radioPhase, h, if_true]
      exact ⟨radioInitOps.tail ++
        (if env 12 = ESP_OK then burstOps (togglePayload (toUnsignedLong (env 14))) else []),
        by simp [radioInitOps]⟩
    · exact Or.inl ⟨not_lt.mp h, by simp [radioPhase, h]⟩
  · subst h1
    have hinit : env 12 = ESP_OK := by
      by_contra hne
      rw [initSucceeded, setup_boot_trace] at hi
      simp [cycleTrace, cycleBody, sleepAt, hne, clearEvents, radioInitEvents, configEvents,
        regWriteEvents, sleepEvents] at hi
      exact hne hi.symm
    refine ⟨env 14, ?_, ?_, ?_⟩
    · rw [setup_boot_trace]
      simp [cycleTrace, cycleBody, sleepAt, hinit, sendEvents]
    · rw [setup_boot_bootCount]
      decide
    · rw [ops_cycle]
      simp [radioPhase, hinit, wrapInt]

/-- Witness of C10: the cycle that starts with `bootCount = 1` under the
oracle `allSucceed`. -/
theorem cycle_order_witness :
    initSucceeded (setup (boot 1 allSucceed)).trace ∧
    (∃ radio, ops (setup (boot 1 allSucceed)).trace =
        [.Wire_begin 8 9] ++ clearOps ++ radio ++ [.store_bootCount (wrapInt (1 + 1))] ++
          mpuConfigOps ++ sleepOps ∧
        (((1 : Int) ≤ 0 ∧ radio = []) ∨
         ((1 : Int) > 0 ∧
          ∃ mid, radio = [.WiFi_mode .WIFI_STA] ++ mid ++ [.WiFi_mode .WIFI_OFF]))) ∧
    ∃ t : Int, ⟨.millis, some t⟩ ∈ (setup (boot 1 allSucceed)).trace ∧
      (setup (boot 1 allSucceed)).bootCount = 2 ∧
      ops (setup (boot 1 allSucceed)).trace =
        [.Wire_begin 8 9] ++ clearOps ++ radioInitOps ++
          burstOps (togglePayload (toUnsignedLong t)) ++ [.WiFi_mode .WIFI_OFF] ++
          [.store_bootCount 2] ++ mpuConfigOps ++ sleepOps :=
  ⟨(initSucceeded_iff 1 allSucceed).mpr ⟨by decide, rfl⟩,
   (cycle_order 1 allSucceed).1,
   (cycle_order 1 allSucceed).2 rfl ((initSucceeded_iff 1 allSucceed).mpr ⟨by decide, rfl⟩)⟩

/-! ## The burst -/

/-- C5: in every cycle in which `esp_now_init` returned `ESP_OK`, whatever
the other calls return, the operations after `esp_now_init` are: one
`esp_now_add_peer` with the fixed receiver address, channel 13, encryption
off; `millis`; then three times `esp_now_send` to the receiver address with
one and the same payload, each followed by `delay(2)`; then the power-off.
The trace has exactly these three sends and this one peer registration. -/
theorem burst_is_three_sends (c : Int) (env : Nat → Int)
    (h : initSucceeded (setup (boot c env)).trace) :
    ∃ pre post d,
      ops (setup (boot c env)).trace = pre ++ [.esp_now_init] ++
        [.esp_now_add_peer ⟨receiverMAC, WIFI_CHANNEL, false⟩, .millis,
         .esp_now_send receiverMAC d sizeof_struct_message, .delay 2,
         .esp_now_send receiverMAC d sizeof_struct_message, .delay 2,
         .esp_now_send receiverMAC d sizeof_struct_message, .delay 2,
         .WiFi_mode .WIFI_OFF] ++ post ∧
      sends (setup (boot c env)).trace =
        List.replicate 3 (.esp_now_send receiverMAC d sizeof_struct_message) ∧
      (ops (setup (boot c env)).trace).filter isAddPeer =
        [.esp_now_add_peer ⟨receiverMAC, WIFI_CHANNEL, false⟩] := by
  obtain ⟨hc, hi⟩ := (initSucceeded_iff c env).mp h
  refine ⟨[.Wire_begin 8 9] ++ clearOps ++ radioInitOps.dropLast,
    [.store_bootCount (wrapInt (c + 1))] ++ mpuConfigOps ++ sleepOps,
    togglePayload (toUnsignedLong (env 14)), ?_, ?_, ?_⟩
  · rw [ops_cycle]
    simp [radioPhase, hc, hi, radioInitOps, burstOps, fixedPeer, receiverMAC, WIFI_CHANNEL,
      sizeof_struct_message]
  · unfold sends
    rw [ops_cycle]
    simp [radioPhase, hc, hi, radioInitOps, burstOps, clearOps, mpuConfigOps, i2cWrite,
      sleepOps, isSend, receiverMAC, sizeof_struct_message, List.replicate]
  · rw [ops_cycle]
    simp [radioPhase, hc, hi, radioInitOps, burstOps, clearOps, mpuConfigOps, i2cWrite,
      sleepOps, isAddPeer, fixedPeer, receiverMAC, WIFI_CHANNEL]

/-- Witness of C5: the cycle that starts with `bootCount = 1` under the
oracle `allSucceed`. -/
theorem burst_is_three_sends_witness :
    initSucceeded (setup (boot 1 allSucceed)).trace ∧
    ∃ pre post d,
      ops (setup (boot 1 allSucceed)).trace = pre ++ [.esp_now_init] ++
        [.esp_now_add_peer ⟨receiverMAC, WIFI_CHANNEL, false⟩, .millis,
         .esp_now_send receiverMAC d sizeof_struct_message, .delay 2,
         .esp_now_send receiverMAC d sizeof_struct_message, .delay 2,
         .esp_now_send receiverMAC d sizeof_struct_message, .delay 2,
         .WiFi_mode .WIFI_OFF] ++ post ∧
      sends (setup (boot 1 allSucceed)).trace =
        List.replicate 3 (.esp_now_send receiverMAC d sizeof_struct_message) ∧
      (ops (setup (boot 1 allSucceed)).trace).filter isAddPeer =
        [.esp_now_add_peer ⟨receiverMAC, WIFI_CHANNEL, false⟩] :=
  ⟨(initSucceeded_iff 1 allSucceed).mpr ⟨by decide, rfl⟩,
   burst_is_three_sends 1 allSucceed ((initSucceeded_iff 1 allSucceed).mpr ⟨by decide, rfl⟩)⟩

/-- C9: in every cycle in which `esp_now_init` returned `ESP_OK`, `millis`
is called exactly once, returning some `t`, and each of the three
`esp_now_send` calls is handed the whole record (`sizeof(myData)` = 36
bytes) whose `msg` is `"TOGGLE"` followed by 26 zero bytes and whose
`timestamp` is `t` as a 32-bit `unsigned long`: `t` modulo 2^32, which is
`t` itself for every value `millis` can return. -/
theorem payload_is_toggle_record (c : Int) (env : Nat → Int)
    (h : initSucceeded (setup (boot c env)).trace) :
    ∃ (t : Int) (ts : Nat),
      (setup (boot c env)).trace.filter isMillis = [⟨.millis, some t⟩] ∧
      sends (setup (boot c env)).trace =
        List.replicate 3 (.esp_now_send [0x84, 0x1F, 0xE8, 0x17, 0x62, 0xD4]
          { msg := [84, 79, 71, 71, 76, 69] ++ List.replicate 26 0,
            timestamp := ts } 36) ∧
      (ts : Int) = t % 4294967296 ∧
      (0 ≤ t → t < 4294967296 → (ts : Int) = t) := by
  obtain ⟨hc, hi⟩ := (initSucceeded_iff c env).mp h
  have hts : ((toUnsignedLong (env 14) : Nat) : Int) = env 14 % 4294967296 := by
    unfold toUnsignedLong
    exact Int.toNat_of_nonneg (Int.emod_nonneg _ (by decide))
  refine ⟨env 14, toUnsignedLong (env 14), ?_, ?_, hts, fun h0 h1 => ?_⟩
  · rw [setup_boot_trace]
    simp [cycleTrace, cycleBody, sleepAt, hc, hi, clearEvents, radioInitEvents, sendEvents,
      configEvents, regWriteEvents, sleepEvents, isMillis]
  · unfold sends
    rw [ops_cycle]
    simp [radioPhase, hc, hi, radioInitOps, burstOps, clearOps, mpuConfigOps, i2cWrite,
      sleepOps, isSend, List.replicate, togglePayload]
  · rw [hts]
    exact Int.emod_eq_of_lt h0 h1

/-- Witness of C9: the cycle that starts with `bootCount = 3` under the
oracle `allSucceed`, in which `millis` returns 1234: the three payloads carry
the time stamp 1234. -/
theorem payload_is_toggle_record_witness :
    initSucceeded (setup (boot 3 allSucceed)).trace ∧
    (setup (boot 3 allSucceed)).trace.filter isMillis = [⟨.millis, some 1234⟩] ∧
    sends (setup (boot 3 allSucceed)).trace =
      List.replicate 3 (.esp_now_send [0x84, 0x1F, 0xE8, 0x17, 0x62, 0xD4]
        { msg := [84, 79, 71, 71, 76, 69] ++ List.replicate 26 0,
          timestamp := 1234 } 36) := by
  have hinit : initSucceeded (setup (boot 3 allSucceed)).trace :=
    (initSucceeded_iff 3 allSucceed).mpr ⟨by decide, rfl⟩
  obtain ⟨t, ts, hm, hs, _, hin⟩ := payload_is_toggle_record 3 allSucceed hinit
  have hcall : (⟨.millis, some 1234⟩ : Event) ∈
      (setup (boot 3 allSucceed)).trace.filter isMillis := by
    rw [setup_boot_trace]
    simp [cycleTrace, cycleBody, sleepAt, allSucceed, ESP_OK, sendEvents, isMillis]
  rw [hm, List.mem_singleton] at hcall
  have ht : t = 1234 := by
    have := congrArg Event.ret hcall
    simpa using this.symm
  subst ht
  have hts : ts = 1234 := by
    have := hin (by decide) (by decide)
    exact_mod_cast this
  subst hts
  exact ⟨hinit, hm, hs⟩

/-! ## Failure of the radio bring-up -/

/-- C4, as stated, fails: in the cycle that starts with `bootCount = 2` under
the oracle `addPeerFails`, `esp_now_add_peer` returns the error 12391 and
`esp_now_send` is still called three times. -/
theorem add_peer_failure_still_sends :
    (12391 : Int) ≠ ESP_OK ∧
    (⟨.esp_now_add_peer ⟨receiverMAC, WIFI_CHANNEL, false⟩, some 12391⟩ : Event) ∈
      (setup (boot 2 addPeerFails)).trace ∧
    (sends (setup (boot 2 addPeerFails)).trace).length = 3 := by
  refine ⟨by decide, ?_, ?_⟩
  · rw [setup_boot_trace]
    simp [cycleTrace, cycleBody, sleepAt, addPeerFails, ESP_OK, sendEvents, fixedPeer,
      receiverMAC, WIFI_CHANNEL]
  · unfold sends
    rw [ops_cycle]
    simp [radioPhase, addPeerFails, ESP_OK, radioInitOps, burstOps, clearOps, mpuConfigOps,
      i2cWrite, sleepOps, isSend]

/-- C4, amended: in every cycle in which `esp_now_init` returned an error,
`esp_now_send` is never called, and the cycle still stores the incremented
counter, issues the whole sensor configuration and arms sleep. -/
theorem init_failure_sends_nothing (c : Int) (env : Nat → Int)
    (h : initFailed (setup (boot c env)).trace) :
    sends (setup (boot c env)).trace = [] ∧
    (setup (boot c env)).bootCount = wrapInt (c + 1) ∧
    ∃ pre, ops (setup (boot c env)).trace =
      pre ++ [.WiFi_mode .WIFI_OFF, .store_bootCount (wrapInt (c + 1))] ++
        mpuConfigOps ++ sleepOps := by
  obtain ⟨hc, hi⟩ := (initFailed_iff c env).mp h
  refine ⟨?_, setup_boot_bootCount c env, [.Wire_begin 8 9] ++ clearOps ++ radioInitOps, ?_⟩
  · unfold sends
    rw [ops_cycle]
    simp [radioPhase, hc, hi, radioInitOps, clearOps, mpuConfigOps, i2cWrite, sleepOps, isSend]
  · rw [ops_cycle]
    simp [radioPhase, hc, hi]

/-- Witness of C4 amended: the cycle that starts with `bootCount = 2` under
the oracle `initFails`; the counter becomes 3. -/
theorem init_failure_sends_nothing_witness :
    initFailed (setup (boot 2 initFails)).trace ∧
    sends (setup (boot 2 initFails)).trace = [] ∧
    (setup (boot 2 initFails)).bootCount = wrapInt (2 + 1) ∧
    ∃ pre, ops (setup (boot 2 initFails)).trace =
      pre ++ [.WiFi_mode .WIFI_OFF, .store_bootCount (wrapInt (2 + 1))] ++
        mpuConfigOps ++ sleepOps :=
  ⟨(initFailed_iff 2 initFails).mpr ⟨by decide, by decide⟩,
   init_failure_sends_nothing 2 initFails
     ((initFailed_iff 2 initFails).mpr ⟨by decide, by decide⟩)⟩

/-! ## The persisted counter -/

/-- C7, as stated, fails at the largest `int`: the cycle that starts with
`bootCount = 2147483647` does not leave `2147483647 + 1` in the counter, it
leaves a smaller value than it started with. -/
theorem counter_wraps_at_int_max :
    (setup (boot INT_MAX (fun _ => 0))).bootCount ≠ INT_MAX + 1 ∧
    (setup (boot INT_MAX (fun _ => 0))).bootCount < INT_MAX := by
  rw [setup_boot_bootCount]
  decide

/-- C7, amended: for every `bootCount = c` in the `int` range below its
largest value, and every outcome of the bus and radio calls, the counter
after the cycle is `c + 1`; so it is larger than before, and positive when
`c` was not negative. -/
theorem counter_incremented (c : Int) (env : Nat → Int)
    (hlo : INT_MIN ≤ c) (hhi : c < INT_MAX) :
    (setup (boot c env)).bootCount = c + 1 ∧
    c < (setup (boot c env)).bootCount ∧
    (0 ≤ c → 0 < (setup (boot c env)).bootCount) := by
  unfold INT_MIN at hlo
  unfold INT_MAX at hhi
  rw [setup_boot_bootCount, wrapInt_eq (c + 1) (by omega) (by omega)]
  refine ⟨rfl, by omega, fun h => by omega⟩

/-- Witness of C7 amended: the cycle that starts with `bootCount = 2`. -/
theorem counter_incremented_witness :
    INT_MIN ≤ 2 ∧ (2 : Int) < INT_MAX ∧
    (setup (boot 2 initFails)).bootCount = 2 + 1 ∧
    2 < (setup (boot 2 initFails)).bootCount ∧
    0 < (setup (boot 2 initFails)).bootCount :=
  ⟨by decide, by decide,
   (counter_incremented 2 initFails (by decide) (by decide)).1,
   (counter_incremented 2 initFails (by decide) (by decide)).2.1,
   (counter_incremented 2 initFails (by decide) (by decide)).2.2 (by decide)⟩

/-! ## Transmissions of a power session -/

/-- C1, as stated, fails for a session longer than the `int` range: of
2147483649 consecutive executions that start at `bootCount = 0`, only
2147483647 invoke `sendBurstMessage`. -/
theorem session_too_long_misses_a_burst :
    ((session (fun _ _ => 0) 2147483649 0 0).filter transmits).length ≠ 2147483649 - 1 := by
  have e0 : (2147483649 : Nat) = (2147483646 + 2) + 1 := by norm_num
  have hb : (setup (boot 0 ((fun _ _ => 0 : Nat → Nat → Int) 0))).bootCount = 1 := by
    rw [setup_boot_bootCount]; decide
  have hsplit := session_append (fun _ _ => 0) 2 2147483646 1 1 (by decide) (by decide)
  have hlast : session (fun _ _ => 0) 2 (1 + 2147483646) (1 + ((2147483646 : Nat) : Int)) =
      [setup (boot 2147483647 (fun _ => 0)), setup (boot (-2147483648) (fun _ => 0))] := by
    have hv : (1 : Int) + ((2147483646 : Nat) : Int) = 2147483647 := by norm_num
    rw [hv]
    show [setup (boot 2147483647 (fun _ => 0)),
      setup (boot (setup (boot 2147483647 (fun _ => 0))).bootCount (fun _ => 0))] = _
    rw [setup_boot_bootCount]
    rfl
  have hcount : ((session (fun _ _ => 0) (2147483646 + 2 + 1) 0 0).filter transmits).length =
      2147483646 + 1 := by
    rw [session_succ, hb, hsplit, hlast, List.filter_cons, transmits_of_nonpos 0 _ (by decide)]
    simp only [Bool.false_eq_true, if_false]
    rw [List.filter_append, List.length_append,
      filter_transmits_length _ 2147483646 1 1 (by decide) (by decide)]
    simp [List.filter_cons, transmits_of_pos 2147483647 _ (by decide),
      transmits_of_nonpos (-2147483648) _ (by decide)]
  rw [e0, hcount]
  decide

/-- C1, amended: for every `N` from 1 to 2147483648 and every outcome of the
bus and radio calls, of `N` consecutive executions of `setup` that start at
`bootCount = 0` exactly `N - 1` invoke `sendBurstMessage`: the first performs
no radio operation at all, every later one does. -/
theorem session_transmits_all_but_first (envs : Nat → Nat → Int) (N : Nat)
    (h1 : 1 ≤ N) (h2 : N ≤ 2147483648) :
    ((session envs N 0 0).filter transmits).length = N - 1 ∧
    (∀ w ∈ (session envs N 0 0).head?, radioOps w.trace = []) ∧
    (∀ w ∈ (session envs N 0 0).tail, transmits w = true) := by
  obtain ⟨n, rfl⟩ : ∃ n, N = n + 1 := ⟨N - 1, by omega⟩
  have hb : (setup (boot 0 (envs 0))).bootCount = 1 := by
    rw [setup_boot_bootCount]; decide
  have hn : (1 : Int) + (n : Int) ≤ 2147483648 := by omega
  rw [session_succ, hb]
  refine ⟨?_, ?_, ?_⟩
  · rw [List.filter_cons, transmits_of_nonpos 0 _ (by decide)]
    simpa using filter_transmits_length envs n 1 1 (by decide) hn
  · intro w hw
    simp only [List.head?_cons, Option.mem_def, Option.some.injEq] at hw
    subst hw
    exact radioOps_of_nonpos 0 _ (by decide)
  · intro w hw
    exact session_all_transmit envs n 1 1 (by decide) hn w hw

/-- Witness of C1 amended: a session of three executions. -/
theorem session_transmits_all_but_first_witness :
    1 ≤ 3 ∧ 3 ≤ 2147483648 ∧
    ((session (fun _ => allSucceed) 3 0 0).filter transmits).length = 3 - 1 ∧
    (∀ w ∈ (session (fun _ => allSucceed) 3 0 0).head?, radioOps w.trace = []) ∧
    (∀ w ∈ (session (fun _ => allSucceed) 3 0 0).tail, transmits w = true) :=
  ⟨by decide, by decide,
   session_transmits_all_but_first (fun _ => allSucceed) 3 (by decide) (by decide)⟩

end MagicWand
